import Mathlib

/-!
Verification of the shxco-missingdata core pipeline against its sources.

Dates are embedded two ways, matching the operations each source function
performs on them:
* plain `Int` counts of days for the gap detector, gap filter and forecast
  slicing (`src/utils/missing_data_processing.py`,
  `src/scripts/forecasting_missing_data.py`), where the code only adds or
  subtracts whole days and compares;
* a calendar triple `SDate` (year, month, day, ordered lexicographically)
  for the aggregator and the forecaster training-window selection, where the
  code reads the `.year` component.

Python strings are embedded as `List Char`; pandas frames as lists of rows.
-/

/-- Calendar date as (year, month, day); comparisons are lexicographic,
matching comparisons of pandas timestamps at midnight. -/
structure SDate where
  year : Int
  month : Int
  day : Int
deriving DecidableEq, Repr

/-- Strict lexicographic order on calendar dates. -/
def SDate.lt (a b : SDate) : Bool :=
  decide (a.year < b.year) ||
    (decide (a.year = b.year) &&
      (decide (a.month < b.month) ||
        (decide (a.month = b.month) && decide (a.day < b.day))))

/-- Non-strict lexicographic order on calendar dates. -/
def SDate.le (a b : SDate) : Bool :=
  SDate.lt a b || decide (a = b)

theorem SDate.lt_irrefl (d : SDate) : SDate.lt d d = false := by
  simp [SDate.lt]

/- == Gap detector (`generate_logbook_gaps` in
`src/utils/missing_data_processing.py`, and the `logbook_gaps` loop in
`src/missing-data/scripts/data_processing.py`). Dates are day numbers. == -/

/-- One known logbook coverage period, an entry of `logbook-dates.json`
(`{startDate, endDate}`), with dates as day numbers. -/
structure Coverage where
  startDate : Int
  endDate : Int
deriving DecidableEq, Repr

/-- A gap between two coverage periods: the dicts
`{"start": ..., "end": ..., "days": ...}` built by the source. -/
structure Gap where
  start : Int
  end_ : Int
  days : Int
deriving DecidableEq, Repr

/-- The source's `MIN_GAP_DAYS = 15`. -/
def MIN_GAP_DAYS : Int := 15

/-- Candidate gap for a consecutive pair of coverage periods:
`gap_start = endDate(i) + oneday`, `gap_end = startDate(i+1) - oneday`,
`days = (gap_end - gap_start).days`. -/
def candidate_gap (p q : Coverage) : Gap :=
  { start := p.endDate + 1
    end_ := q.startDate - 1
    days := (q.startDate - 1) - (p.endDate + 1) }

/-- The classifying loop of `generate_logbook_gaps`: iterate over consecutive
pairs of the ordered coverage list; append each candidate to `logbook_gaps`
when `gap_duration > MIN_GAP_DAYS`, to `skipped_gaps` when
`gap_duration > 0`, and drop it otherwise.  Returns
(`logbook_gaps`, `skipped_gaps`). -/
def gaps_loop : List Coverage → List Gap × List Gap
  | p :: q :: rest =>
    let g := candidate_gap p q
    let r := gaps_loop (q :: rest)
    if MIN_GAP_DAYS < g.days then (g :: r.1, r.2)
    else if 0 < g.days then (r.1, g :: r.2)
    else (r.1, r.2)
  | _ => ([], [])

/-- Claim C1: for every consecutive pair of coverage periods the candidate
interval `[endDate(i)+1, startDate(i+1)-1]` with `days = end - start` is
classified into exactly one of three outcomes: `days > 15` large,
`0 < days <= 15` skipped, `days <= 0` discarded; in particular `days = 15`
is skipped, `days = 16` is large and `days = 0` is discarded. -/
theorem C1_gap_partition :
    (∀ p q : Coverage,
      (candidate_gap p q).start = p.endDate + 1 ∧
      (candidate_gap p q).end_ = q.startDate - 1 ∧
      (candidate_gap p q).days = (candidate_gap p q).end_ - (candidate_gap p q).start) ∧
    (∀ p q : Coverage,
      (MIN_GAP_DAYS < (candidate_gap p q).days ∧
        gaps_loop [p, q] = ([candidate_gap p q], []) ∧
        ¬(0 < (candidate_gap p q).days ∧ (candidate_gap p q).days ≤ MIN_GAP_DAYS) ∧
        ¬((candidate_gap p q).days ≤ 0)) ∨
      (0 < (candidate_gap p q).days ∧ (candidate_gap p q).days ≤ MIN_GAP_DAYS ∧
        gaps_loop [p, q] = ([], [candidate_gap p q]) ∧
        ¬(MIN_GAP_DAYS < (candidate_gap p q).days) ∧
        ¬((candidate_gap p q).days ≤ 0)) ∨
      ((candidate_gap p q).days ≤ 0 ∧
        gaps_loop [p, q] = ([], []) ∧
        ¬(MIN_GAP_DAYS < (candidate_gap p q).days) ∧
        ¬(0 < (candidate_gap p q).days ∧ (candidate_gap p q).days ≤ MIN_GAP_DAYS))) ∧
    ((candidate_gap ⟨0, 0⟩ ⟨17, 17⟩).days = 15 ∧
      gaps_loop [⟨0, 0⟩, ⟨17, 17⟩] = ([], [candidate_gap ⟨0, 0⟩ ⟨17, 17⟩])) ∧
    ((candidate_gap ⟨0, 0⟩ ⟨18, 18⟩).days = 16 ∧
      gaps_loop [⟨0, 0⟩, ⟨18, 18⟩] = ([candidate_gap ⟨0, 0⟩ ⟨18, 18⟩], [])) ∧
    ((candidate_gap ⟨0, 0⟩ ⟨2, 2⟩).days = 0 ∧
      gaps_loop [⟨0, 0⟩, ⟨2, 2⟩] = ([], [])) := by
  refine ⟨?_, ?_, by decide, by decide, by decide⟩
  · intro p q
    simp [candidate_gap]
  · intro p q
    by_cases h1 : MIN_GAP_DAYS < (candidate_gap p q).days
    · left
      refine ⟨h1, ?_, ?_, ?_⟩
      · simp [gaps_loop, h1]
      · simp only [MIN_GAP_DAYS] at h1 ⊢
        omega
      · simp only [MIN_GAP_DAYS] at h1 ⊢
        omega
    · by_cases h2 : 0 < (candidate_gap p q).days
      · right; left
        refine ⟨h2, ?_, ?_, h1, ?_⟩
        · simp only [MIN_GAP_DAYS] at h1 ⊢
          omega
        · simp [gaps_loop, h1, h2]
        · omega
      · right; right
        refine ⟨?_, ?_, h1, ?_⟩
        · omega
        · simp [gaps_loop, h1, h2]
        · simp only [MIN_GAP_DAYS]
          omega

/- == Gap filter (`exclude_gap_events` in
`src/utils/missing_data_processing.py`, lines 297-331): copy the frame,
then for each gap keep only rows outside `[gap.start, gap.end]`. == -/

/-- A row of the logbook events frame as seen by the gap filter: a
`logbook_date` column (pandas `NaT` embedded as `none`; a comparison with
`NaT` is false, so such a row survives every pass) plus a payload column. -/
structure LogRow where
  event_type : List Char
  logbook_date : Option Int
deriving DecidableEq, Repr

/-- The source's per-gap test
`(logbook_date >= gap_start) & (logbook_date <= gap_end)`. -/
def dateInGap (d : Option Int) (g : Gap) : Bool :=
  match d with
  | none => false
  | some x => decide (g.start ≤ x) && decide (x ≤ g.end_)

/-- `exclude_gap_events`: starting from a copy of the frame, iterate over
the gaps, each pass keeping the rows whose `logbook_date` is not within the
gap (the source's `~((date >= gap_start) & (date <= gap_end))` mask). -/
def exclude_gap_events (events_df : List LogRow) (gaps : List Gap) : List LogRow :=
  gaps.foldl
    (fun acc gap => acc.filter (fun e => ! dateInGap e.logbook_date gap))
    events_df

theorem exclude_gap_events_eq_filter (gaps : List Gap) (events_df : List LogRow) :
    exclude_gap_events events_df gaps
      = events_df.filter (fun e => gaps.all (fun g => ! dateInGap e.logbook_date g)) := by
  induction gaps generalizing events_df with
  | nil => simp [exclude_gap_events]
  | cons g gs ih =>
    have step : exclude_gap_events events_df (g :: gs)
        = exclude_gap_events
            (events_df.filter (fun e => ! dateInGap e.logbook_date g)) gs := rfl
    rw [step, ih, List.filter_filter]
    congr 1
    funext e
    rw [List.all_cons]
    cases dateInGap e.logbook_date g <;> simp

/-- Claim C2: the gap filter returns exactly the subset of events whose date
does not fall inside any gap's closed interval `[start, end]`; a date equal
to a gap's `start` or `end` counts as inside (hence is excluded), and an
event outside every gap is retained. -/
theorem C2_gap_filter_exact_subset :
    (∀ (events_df : List LogRow) (gaps : List Gap),
      exclude_gap_events events_df gaps
        = events_df.filter (fun e => gaps.all (fun g => ! dateInGap e.logbook_date g))) ∧
    (∀ (events_df : List LogRow) (gaps : List Gap) (e : LogRow),
      e ∈ exclude_gap_events events_df gaps ↔
        e ∈ events_df ∧ ∀ g ∈ gaps, dateInGap e.logbook_date g = false) ∧
    (∀ (g : Gap) (x : Int), g.start ≤ x → x ≤ g.end_ → dateInGap (some x) g = true) := by
  refine ⟨fun events gaps => exclude_gap_events_eq_filter gaps events, ?_, ?_⟩
  · intro events gaps e
    rw [exclude_gap_events_eq_filter]
    simp [List.mem_filter, List.all_eq_true]
  · intro g x h1 h2
    simp [dateInGap, h1, h2]

/-- Claim C7: gap filtering is idempotent: filtering an already gap-filtered
series by the same gaps again yields the identical series. -/
theorem C7_gap_filter_idempotent :
    ∀ (events_df : List LogRow) (gaps : List Gap),
      exclude_gap_events (exclude_gap_events events_df gaps) gaps
        = exclude_gap_events events_df gaps := by
  intro events gaps
  rw [exclude_gap_events_eq_filter, exclude_gap_events_eq_filter, List.filter_filter]
  congr 1
  funext e
  cases gaps.all (fun g => ! dateInGap e.logbook_date g) <;> simp

/-- Claim C10: the gap filter's output is a sublist of its input (every
output row is an input row, unaltered, no duplication, in the input's
relative order), and the result does not depend on the order in which the
gaps are applied. -/
theorem C10_gap_filter_sublist :
    (∀ (events_df : List LogRow) (gaps : List Gap),
      (exclude_gap_events events_df gaps).Sublist events_df) ∧
    (∀ (events_df : List LogRow) (gaps1 gaps2 : List Gap),
      gaps1.Perm gaps2 →
        exclude_gap_events events_df gaps1 = exclude_gap_events events_df gaps2) := by
  constructor
  · intro events gaps
    rw [exclude_gap_events_eq_filter]
    exact List.filter_sublist _
  · intro events gaps1 gaps2 h
    rw [exclude_gap_events_eq_filter, exclude_gap_events_eq_filter]
    congr 1
    funext e
    rw [Bool.eq_iff_iff, List.all_eq_true, List.all_eq_true]
    constructor
    · intro hh x hx
      exact hh x (h.mem_iff.mpr hx)
    · intro hh x hx
      exact hh x (h.mem_iff.mp hx)

/- == Record normalizer: short identifiers (`short_id` in
`src/utils/missing_data_processing.py`, lines 104-107).  Python strings are
embedded as `List Char`. == -/

/-- Python `str.split(sep)` for a one-character separator:
`"".split(sep) == [""]`, adjacent separators produce empty segments, and the
result is never the empty list. -/
def pysplit (sep : Char) : List Char → List (List Char)
  | [] => [[]]
  | c :: rest =>
    if c = sep then [] :: pysplit sep rest
    else
      match pysplit sep rest with
      | [] => [[c]]
      | h :: t => (c :: h) :: t

theorem pysplit_ne_nil (sep : Char) (s : List Char) : pysplit sep s ≠ [] := by
  cases s with
  | nil => simp [pysplit]
  | cons c rest =>
    by_cases h : c = sep
    · simp [pysplit, h]
    · simp only [pysplit, if_neg h]
      cases pysplit sep rest <;> simp

/-- Python `str.rstrip("/")`: drop every trailing slash. -/
def rstripSlash (s : List Char) : List Char :=
  (s.reverse.dropWhile (fun c => c = '/')).reverse

/-- `short_id`: `uri.rstrip("/").split("/")[-1] if pd.notna(uri) else None`.
Python `[-1]` on the never-empty result of `split` is its last element. -/
def short_id : Option (List Char) → Option (List Char)
  | none => none
  | some u => some ((pysplit '/' (rstripSlash u)).getLastD [])

theorem pysplit_append_sep (sep : Char) (a b : List Char) :
    pysplit sep (a ++ sep :: b) = pysplit sep a ++ pysplit sep b := by
  induction a with
  | nil => simp [pysplit]
  | cons c a ih =>
    by_cases h : c = sep
    · simp [pysplit, h, ih]
    · simp only [List.cons_append, pysplit, if_neg h, List.append_eq]
      rw [ih]
      cases hs : pysplit sep a with
      | nil => exact absurd hs (pysplit_ne_nil sep a)
      | cons x t => simp

theorem pysplit_no_sep (sep : Char) (s : List Char) (h : sep ∉ s) :
    pysplit sep s = [s] := by
  induction s with
  | nil => simp [pysplit]
  | cons c rest ih =>
    have hc : ¬(c = sep) := fun hh => h (hh ▸ List.mem_cons_self c rest)
    have hr : sep ∉ rest := fun hh => h (List.mem_cons_of_mem c hh)
    simp [pysplit, hc, ih hr]

theorem dropWhile_replicate_sep (sep : Char) (k : Nat) (l : List Char) :
    List.dropWhile (fun c => c = sep) (List.replicate k sep ++ l)
      = List.dropWhile (fun c => c = sep) l := by
  induction k with
  | zero => simp
  | succ n ih => simp [List.replicate_succ, List.dropWhile_cons, ih]

theorem rstripSlash_strip (p seg : List Char) (k : Nat)
    (hne : seg ≠ []) (hsep : ¬('/' ∈ seg)) :
    rstripSlash (p ++ ('/' :: (seg ++ List.replicate k '/')))
      = p ++ ('/' :: seg) := by
  unfold rstripSlash
  have hrev : (p ++ ('/' :: (seg ++ List.replicate k '/'))).reverse
      = List.replicate k '/' ++ (seg.reverse ++ ('/' :: p.reverse)) := by
    simp [List.reverse_append, List.reverse_cons, List.reverse_replicate,
      List.append_assoc]
  rw [hrev, dropWhile_replicate_sep]
  cases hs : seg.reverse with
  | nil => exact absurd (List.reverse_eq_nil_iff.mp hs) hne
  | cons c t =>
    have hc : c ∈ seg := by
      rw [← List.mem_reverse, hs]
      exact List.mem_cons_self c t
    have hcs : ¬(c = '/') := fun hh => hsep (hh ▸ hc)
    rw [List.cons_append, List.dropWhile_cons, if_neg (by simp [hcs])]
    rw [← List.cons_append, ← hs]
    simp [List.reverse_append]

/-- Claim C8: short-identifier extraction returns the final non-empty path
segment of a URI-shaped string (strip trailing slashes, split on "/", take
the last element): for any prefix, any non-empty final segment without a
slash, and any number of trailing slashes, the segment is returned; the
documented example maps to "alajouanine"; an absent input returns an absent
value. -/
theorem C8_short_id_last_segment :
    (short_id none = none) ∧
    (short_id (some ("https://example.org/members/alajouanine/".data))
       = some ("alajouanine".data)) ∧
    (∀ (p seg : List Char) (k : Nat), seg ≠ [] → ¬('/' ∈ seg) →
      short_id (some (p ++ ('/' :: (seg ++ List.replicate k '/')))) = some seg) := by
  refine ⟨rfl, by decide, ?_⟩
  intro p seg k hne hsep
  show some ((pysplit '/'
      (rstripSlash (p ++ ('/' :: (seg ++ List.replicate k '/'))))).getLastD [])
    = some seg
  rw [rstripSlash_strip p seg k hne hsep, pysplit_append_sep,
    pysplit_no_sep _ _ hsep, List.getLastD_eq_getLast?, List.getLast?_concat]
  rfl

/-- Witness for C8: the universally quantified part of the claim applied at
a concrete URI-shaped input, discharging both hypotheses. -/
theorem C8_short_id_last_segment_witness :
    short_id (some (("https://x/members".data)
        ++ ('/' :: (("abc".data) ++ List.replicate 2 '/')))) = some ("abc".data) :=
  C8_short_id_last_segment.2.2 ("https://x/members".data) ("abc".data) 2
    (by decide) (by decide)

/- == Record normalizer and aggregator: events pipeline
(`preprocess_events_data`, `earliest_date`, `generate_member_events` in
`src/utils/missing_data_processing.py`; the same steps are inlined in
`src/missing-data/scripts/data_processing.py`; `get_shxco_data` in
`src/data/dataset.py`). == -/

/-- A row of the events table: the raw columns the pipeline reads, plus the
derived columns it assigns (absent before assignment). -/
structure EventRow where
  event_type : List Char
  start_date : Option SDate
  end_date : Option SDate
  subscription_purchase_date : Option SDate
  member_uris : List Char
  item_uri : Option (List Char)
  source_type : List Char
  first_member_uri : Option (List Char) := none
  second_member_uri : Option (List Char) := none
  member_id : Option (List Char) := none
  item_id : Option (List Char) := none
  earliest_date : Option SDate := none
  date : Option SDate := none
deriving DecidableEq, Repr

/-- The column assignment
`events_df[["first_member_uri", "second_member_uri"]] =
events_df.member_uris.str.split(";", expand=True)`: the first URI, and the
second when `member_uris` holds two URIs joined by ";" (None otherwise). -/
def split_member_uris (r : EventRow) : EventRow :=
  { r with
    first_member_uri := some ((pysplit ';' r.member_uris).headD [])
    second_member_uri := (pysplit ';' r.member_uris).get? 1 }

/-- The column assignment
`events_df["member_id"] = events_df.first_member_uri.apply(short_id)`. -/
def assign_member_id (r : EventRow) : EventRow :=
  { r with member_id := short_id r.first_member_uri }

/-- The column assignment
`events_df["item_id"] = events_df.item_uri.apply(short_id)`. -/
def assign_item_id (r : EventRow) : EventRow :=
  { r with item_id := short_id r.item_uri }

/-- `preprocess_events_data` (lines 110-136): three successive column
assignments on the events frame; no row is dropped. -/
def preprocess_events_data (events_df : List EventRow) : List EventRow :=
  ((events_df.map split_member_uris).map assign_member_id).map assign_item_id

/-- Python `lst[-2]`, as in `x.split("/")[-2]` in `src/data/dataset.py` (the
S&co URIs always have at least two segments, so the partial indexing is
embedded with a default). -/
def pyIndexNeg2 (xs : List (List Char)) : List Char :=
  (xs.reverse.drop 1).headD []

/-- `events_df["member_id"] = events_df.first_member_uri.apply(lambda x: x.split("/")[-2])`
in `get_shxco_data`. -/
def shxco_member_id (r : EventRow) : EventRow :=
  { r with member_id := some (pyIndexNeg2 (pysplit '/' (r.first_member_uri.getD []))) }

/-- `events_df["item_uri"] = events_df.item_uri.apply(lambda x: x.split("/")[-2] if pd.notna(x) else None)`
in `get_shxco_data`. -/
def shxco_item_uri (r : EventRow) : EventRow :=
  { r with item_uri := r.item_uri.map (fun x => pyIndexNeg2 (pysplit '/' x)) }

/-- The events part of `get_shxco_data` (`src/data/dataset.py`, lines
51-70): split the member URIs, drop every event that has a second member
URI (`events_df[events_df.second_member_uri.isna()]`), then derive the
short identifiers. -/
def get_shxco_events (events_df : List EventRow) : List EventRow :=
  (((events_df.map split_member_uris).filter
      (fun r => r.second_member_uri.isNone)).map shxco_member_id).map shxco_item_uri

/-- Python `min` over a list of dates (`none` when empty), returning the
least element under the lexicographic date order. -/
def pymin : List SDate → Option SDate
  | [] => none
  | x :: xs =>
    match pymin xs with
    | none => some x
    | some m => some (if SDate.lt m x then m else x)

/-- `earliest_date(row)` (lines 208-231): the earliest of `start_date`,
`subscription_purchase_date` and `end_date`, ignoring absent values;
absent when all three are. -/
def row_earliest_date (row : EventRow) : Option SDate :=
  pymin ([row.start_date, row.subscription_purchase_date, row.end_date].filterMap id)

/-- The four columns `generate_member_events` keeps:
`members_added = member_dates[["event_type", "member_id", "date", "source_type"]]`. -/
structure MemberRow where
  event_type : List Char
  member_id : Option (List Char)
  date : Option SDate
  source_type : List Char
deriving DecidableEq, Repr

/-- Column projection from the events frame to `members_added`. -/
def toMemberRow (r : EventRow) : MemberRow :=
  ⟨r.event_type, r.member_id, r.date, r.source_type⟩

/-- Rank of an event type in the ordered categorical
`CategoricalDtype(categories=["Subscription", "Renewal", "Separate Payment",
"Borrow", "Purchase", "Supplement", "Request", "Gift", "Crossed out",
"Reimbursement"], ordered=True)`; a type outside the list becomes NaN,
which pandas sorts last (rank 10). -/
def event_type_rank (t : List Char) : Nat :=
  if t = "Subscription".data then 0
  else if t = "Renewal".data then 1
  else if t = "Separate Payment".data then 2
  else if t = "Borrow".data then 3
  else if t = "Purchase".data then 4
  else if t = "Supplement".data then 5
  else if t = "Request".data then 6
  else if t = "Gift".data then 7
  else if t = "Crossed out".data then 8
  else if t = "Reimbursement".data then 9
  else 10

/-- Strict comparison of nullable dates; pandas sorts NaT last. -/
def optDateLt : Option SDate → Option SDate → Bool
  | none, _ => false
  | some _, none => true
  | some a, some b => SDate.lt a b

/-- Strict sort key of `member_events.sort_values(by=["date", "event_type"])`:
date ascending, then categorical event-type rank ascending. -/
def rowLt (a b : MemberRow) : Bool :=
  optDateLt a.date b.date ||
    (decide (a.date = b.date) &&
      decide (event_type_rank a.event_type < event_type_rank b.event_type))

/-- Stable insertion into a sorted list: an element earlier in the original
frame stays before later elements with an equal key, like pandas'
multi-column `sort_values` (numpy lexsort, stable). -/
def insertByLt (lt : MemberRow → MemberRow → Bool) (a : MemberRow) :
    List MemberRow → List MemberRow
  | [] => [a]
  | y :: ys => if lt y a then y :: insertByLt lt a ys else a :: y :: ys

/-- Stable sort by the given strict key. -/
def sortByLt (lt : MemberRow → MemberRow → Bool) : List MemberRow → List MemberRow
  | [] => []
  | a :: l => insertByLt lt a (sortByLt lt l)

/-- The study cutoff in
`members_added[members_added["date"] < datetime(1942, 1, 1)]`. -/
def cutoff1942 : SDate := ⟨1942, 1, 1⟩

/-- `generate_member_events` (lines 414-484) up to the sorted
`member_events` frame: preprocess the events, derive `earliest_date` and
`date`, keep the four columns, drop rows with unknown dates, keep dates
before 1942, and stably sort by `(date, event_type)` with the categorical
rank. -/
def generate_member_events (events_df : List EventRow) : List MemberRow :=
  let events := preprocess_events_data events_df
  let member_dates := events.map (fun r => { r with earliest_date := row_earliest_date r })
  let member_dates := member_dates.map (fun r => { r with date := r.earliest_date })
  let members_added := (member_dates.map toMemberRow).filter (fun r => r.date.isSome)
  let members_added := members_added.filter (fun r => optDateLt r.date (some cutoff1942))
  sortByLt rowLt members_added

/-- `member_events.groupby("member_id").first()` observed at one member key
(`src/missing-data/scripts/data_processing.py`, line 169): the first row of
that member's group in the sorted frame. -/
def first_event_for_member (events_df : List EventRow) (m : Option (List Char)) :
    Option MemberRow :=
  ((generate_member_events events_df).filter (fun r => r.member_id = m)).head?

/-- A shared-account event: two member URIs joined by ";". -/
def sharedEvent : EventRow :=
  { event_type := "Subscription".data
    start_date := some ⟨1920, 3, 4⟩
    end_date := none
    subscription_purchase_date := none
    member_uris := "https://x/members/a/;https://x/members/b/".data
    item_uri := none
    source_type := "Logbook".data }

/-- Counterexample to claim C3 as stated: a shared-account event (two member
URIs joined by ";") is not excluded from the member pipeline —
`preprocess_events_data` keeps the row, records the second URI, attributes
the event to the first member, and the event then appears in the
first-event-per-member aggregation for that member. -/
theorem C3_counterexample_shared_account_retained :
    ((preprocess_events_data [sharedEvent]).headD sharedEvent).second_member_uri
        = some ("https://x/members/b/".data) ∧
    first_event_for_member [sharedEvent] (some ("a".data))
      = some { event_type := "Subscription".data, member_id := some ("a".data),
               date := some ⟨1920, 3, 4⟩, source_type := "Logbook".data } := by
  exact ⟨by decide, by decide⟩

/-- Claim C3 amended: events with a second member URI are dropped only by
`get_shxco_data` in `src/data/dataset.py` — every event row it returns has
no second member URI.  `preprocess_events_data` in
`src/utils/missing_data_processing.py` retains such events (it drops no
row) and attributes them to the first member URI, so a shared-account event
can appear in the per-member aggregations of the missing-data pipeline. -/
theorem C3_shared_account_amended :
    (∀ (events_df : List EventRow) (r : EventRow),
      r ∈ get_shxco_events events_df → r.second_member_uri = none) ∧
    (∀ events_df : List EventRow,
      (preprocess_events_data events_df).length = events_df.length) ∧
    first_event_for_member [sharedEvent] (some ("a".data)) ≠ none := by
  refine ⟨?_, ?_, by decide⟩
  · intro events r hr
    simp only [get_shxco_events, List.mem_map, List.mem_filter] at hr
    obtain ⟨a, ⟨b, ⟨hbmem, hp⟩, hba⟩, har⟩ := hr
    subst har
    subst hba
    simp only [shxco_item_uri, shxco_member_id]
    exact Option.isNone_iff_eq_none.mp hp
  · intro events
    simp [preprocess_events_data]

/-- Witness for the amended claim C3: the universally quantified
row-preservation part applied at a concrete one-row frame. -/
theorem C3_shared_account_amended_witness :
    (preprocess_events_data [sharedEvent]).length = [sharedEvent].length :=
  C3_shared_account_amended.2.1 [sharedEvent]

/-- An event row of the same-day tie-break scenario: one member URI field,
one event type, the event's only known date `d` (so `earliest_date = d`). -/
def tieEvent (u t st : List Char) (d : SDate) : EventRow :=
  { event_type := t, start_date := some d, end_date := none,
    subscription_purchase_date := none, member_uris := u, item_uri := none,
    source_type := st }

/-- Claim C4: a member with two same-day events, one Reimbursement and one
Subscription (in either input order), resolves to the Subscription event as
the member's first event, because the frame is sorted by date ascending
then by the fixed categorical event-type order before taking the first row
per member. -/
theorem C4_same_day_tiebreak (u st1 st2 : List Char) (d : SDate)
    (h : SDate.lt d cutoff1942 = true) :
    ((first_event_for_member
        [tieEvent u ("Reimbursement".data) st1 d,
         tieEvent u ("Subscription".data) st2 d]
        (short_id (some ((pysplit ';' u).headD [])))).map (fun r => r.event_type)
      = some ("Subscription".data)) ∧
    ((first_event_for_member
        [tieEvent u ("Subscription".data) st1 d,
         tieEvent u ("Reimbursement".data) st2 d]
        (short_id (some ((pysplit ';' u).headD [])))).map (fun r => r.event_type)
      = some ("Subscription".data)) := by
  constructor
  · simp +decide [first_event_for_member, generate_member_events,
      preprocess_events_data, split_member_uris, assign_member_id,
      assign_item_id, tieEvent, row_earliest_date, pymin, toMemberRow,
      optDateLt, h, sortByLt, insertByLt, rowLt, SDate.lt_irrefl, List.find?]
  · simp +decide [first_event_for_member, generate_member_events,
      preprocess_events_data, split_member_uris, assign_member_id,
      assign_item_id, tieEvent, row_earliest_date, pymin, toMemberRow,
      optDateLt, h, sortByLt, insertByLt, rowLt, SDate.lt_irrefl, List.find?]

/-- Witness for claim C4: the tie-break theorem applied at a concrete
member URI, source labels and date, discharging the 1942-cutoff
hypothesis. -/
theorem C4_same_day_tiebreak_witness :
    (first_event_for_member
        [tieEvent ("https://x/members/a/".data) ("Reimbursement".data)
            ("Logbook".data) ⟨1920, 3, 4⟩,
         tieEvent ("https://x/members/a/".data) ("Subscription".data)
            ("Logbook".data) ⟨1920, 3, 4⟩]
        (short_id (some ((pysplit ';' ("https://x/members/a/".data)).headD [])))).map
          (fun r => r.event_type)
      = some ("Subscription".data) :=
  (C4_same_day_tiebreak ("https://x/members/a/".data) ("Logbook".data)
    ("Logbook".data) ⟨1920, 3, 4⟩ (by decide)).1

/- == Forecaster: training-window selection (`prepare_data_for_prophet` in
`src/scripts/forecasting_missing_data.py`, lines 62-77; identical in
`src/missing-data/scripts/data_processing.py`, lines 205-211). == -/

/-- A weekly bucketed count: the columns `date`, `total`. -/
structure WeeklyPoint where
  date : SDate
  total : Int
deriving DecidableEq, Repr

/-- A training point after `rename(columns={"date": "ds", "total": "y"})`. -/
structure ProphetPoint where
  ds : SDate
  y : Int
deriving DecidableEq, Repr

/-- The column renaming for Prophet. -/
def toProphet (p : WeeklyPoint) : ProphetPoint := ⟨p.date, p.total⟩

/-- The cutoff the callers pass:
`post1932_date = pd.to_datetime(date(1932, 9, 27))`
(`src/missing-data/scripts/data_processing.py`, line 275). -/
def post1932_date : SDate := ⟨1932, 9, 27⟩

/-- `prepare_data_for_prophet`: keep the points strictly before the gap's
start date; when `gap_start_date.year >= 1936`, keep only points with
`date >= post1932_date`; rename the columns for Prophet. -/
def prepare_data_for_prophet (weekly_subscriptions : List WeeklyPoint)
    (gap_start_date post1932 : SDate) : List ProphetPoint :=
  let data_before_gap :=
    weekly_subscriptions.filter (fun p => SDate.lt p.date gap_start_date)
  let data_before_gap :=
    if 1936 ≤ gap_start_date.year then
      data_before_gap.filter (fun p => SDate.le post1932 p.date)
    else data_before_gap
  data_before_gap.map toProphet

/-- Claim C5: for every gap, the training window is exactly the series
points strictly before the gap's start date, with points before the fixed
cutoff 1932-09-27 additionally dropped when the gap starts in 1936 or
later. -/
theorem C5_training_window :
    (∀ (weekly : List WeeklyPoint) (gs : SDate),
      prepare_data_for_prophet weekly gs post1932_date
        = (weekly.filter (fun p => SDate.lt p.date gs &&
            (decide (gs.year < 1936) || SDate.le post1932_date p.date))).map toProphet) ∧
    post1932_date = ⟨1932, 9, 27⟩ := by
  refine ⟨?_, rfl⟩
  intro weekly gs
  by_cases h : (1936 : Int) ≤ gs.year
  · have hd : decide (gs.year < 1936) = false := decide_eq_false (Int.not_lt.mpr h)
    simp only [prepare_data_for_prophet, if_pos h, List.filter_filter, hd]
    congr 1
    congr 1
    funext p
    cases SDate.lt p.date gs <;> cases SDate.le post1932_date p.date <;> rfl
  · have hd : decide (gs.year < 1936) = true := decide_eq_true (Int.not_le.mp h)
    simp only [prepare_data_for_prophet, if_neg h, hd]
    congr 1
    congr 1
    funext p
    cases SDate.lt p.date gs <;> rfl

/- == Forecaster: per-gap forecast slicing (`forecast_gap_with_prophet` in
`src/scripts/forecasting_missing_data.py`, lines 79-120).  The Prophet
fit/predict pair is the spec's external trend-model capability, so the
predicted frame over the extended axis is taken as input here; dates are
day numbers and the predicted values uninterpreted numbers. == -/

/-- A row of the forecast frame: `ds, yhat, yhat_lower, yhat_upper`. -/
structure ForecastRow where
  ds : Int
  yhat : Int
  yhat_lower : Int
  yhat_upper : Int
deriving DecidableEq, Repr

/-- The near-gap slice (line 119):
`forecasted[(ds > gap.start - time_duration) & (ds < gap.end + time_duration)]`. -/
def forecast_near_gap (forecasted_subscriptions : List ForecastRow)
    (gap : Gap) (time_duration : Int) : List ForecastRow :=
  forecasted_subscriptions.filter
    (fun r => decide (gap.start - time_duration < r.ds) &&
      decide (r.ds < gap.end_ + time_duration))

/-- The pair `forecast_gap_with_prophet` returns (line 120): the full
extended-axis forecast together with the near-gap slice. -/
def forecast_gap_with_prophet_result (forecasted_subscriptions : List ForecastRow)
    (gap : Gap) (time_duration : Int) : List ForecastRow × List ForecastRow :=
  (forecasted_subscriptions,
    forecast_near_gap forecasted_subscriptions gap time_duration)

/-- The buffer `forecast_missing_subscriptions` chooses (line 141):
`timedelta(days=30 * 6) if model_monthly else timedelta(days=7)`; the
default mode is weekly, so the default buffer is 7 days. -/
def forecast_time_duration (model_monthly : Bool) : Int :=
  if model_monthly then 30 * 6 else 7

/-- Counterexample to claim C6 as stated: the near-gap slice is not the
restriction to the closed window `[gap.start - buffer, gap.end + buffer]` —
a forecast row dated exactly `gap.start - buffer` lies in that closed
window yet is dropped by the slice, whose comparisons are strict. -/
theorem C6_counterexample_closed_window :
    forecast_near_gap [⟨93, 0, 0, 0⟩] ⟨100, 120, 20⟩ 7 = [] ∧
    (⟨100, 120, 20⟩ : Gap).start - 7 ≤ (93 : Int) ∧
    (93 : Int) ≤ (⟨100, 120, 20⟩ : Gap).end_ + 7 := by decide

/-- Claim C6 amended: the near-gap slice returned for reporting is the
restriction of the full extended-axis forecast to the OPEN interval
`(gap.start - buffer, gap.end + buffer)` (both endpoints excluded); the
full extended-axis forecast is returned alongside it, and the buffer
defaults to one week (7 days) in the default weekly mode. -/
theorem C6_near_gap_slice_amended :
    (∀ (forecasted : List ForecastRow) (gap : Gap) (td : Int) (r : ForecastRow),
      r ∈ (forecast_gap_with_prophet_result forecasted gap td).2 ↔
        r ∈ forecasted ∧ gap.start - td < r.ds ∧ r.ds < gap.end_ + td) ∧
    (∀ (forecasted : List ForecastRow) (gap : Gap) (td : Int),
      (forecast_gap_with_prophet_result forecasted gap td).1 = forecasted) ∧
    forecast_time_duration false = 7 := by
  refine ⟨?_, fun _ _ _ => rfl, rfl⟩
  intro f gap td r
  simp [forecast_gap_with_prophet_result, forecast_near_gap, List.mem_filter,
    and_assoc]

/- == Frame effects (claim C9): the pandas heap.  A frame reference is an
index into a store of frames.  Pandas column assignment (`df[col] = ...`)
writes the frame in place at its reference; boolean-mask selection
(`df[mask]`) and `.copy()` build new frames.  Each source function below is
the composition of exactly the primitives its code performs, so whether a
stage mutates its input is derived from the code's structure. == -/

/-- The store of live frames. -/
structure PdState (α : Type) where
  frames : List (List α)
deriving DecidableEq, Repr

/-- Read the frame a reference points to. -/
def readDF {α : Type} (s : PdState α) (r : Nat) : List α :=
  (s.frames.get? r).getD []

/-- In-place column assignment `df[col] = ...`: overwrite the frame at its
own reference, applying the row update to every row. -/
def assignCols {α : Type} (s : PdState α) (r : Nat) (f : α → α) : PdState α :=
  ⟨s.frames.set r ((readDF s r).map f)⟩

/-- Allocate a fresh frame for the result of a pandas expression that
builds a new object. -/
def allocDF {α : Type} (s : PdState α) (df : List α) : Nat × PdState α :=
  (s.frames.length, ⟨s.frames ++ [df]⟩)

/-- Boolean-mask selection `df[pred]`: a new frame of the matching rows. -/
def maskCopy {α : Type} (s : PdState α) (r : Nat) (p : α → Bool) : Nat × PdState α :=
  allocDF s ((readDF s r).filter p)

/-- `df.copy()`: a new frame with the same rows. -/
def copyDF {α : Type} (s : PdState α) (r : Nat) : Nat × PdState α :=
  allocDF s (readDF s r)

/-- `preprocess_events_data` as heap operations (lines 110-136): three
successive in-place column assignments on the caller's events frame, which
is then returned unchanged as a reference. -/
def preprocess_events_data_st (s : PdState EventRow) (r : Nat) :
    Nat × PdState EventRow :=
  let s1 := assignCols s r split_member_uris
  let s2 := assignCols s1 r assign_member_id
  let s3 := assignCols s2 r assign_item_id
  (r, s3)

/-- `exclude_gap_events` as heap operations (lines 297-331):
`events_df.copy()` first, then one boolean-mask selection per gap, each
binding a new frame; the input frame is never written. -/
def exclude_gap_events_st (s : PdState LogRow) (r : Nat) (gaps : List Gap) :
    Nat × PdState LogRow :=
  gaps.foldl
    (fun acc gap =>
      maskCopy acc.2 acc.1 (fun e => ! dateInGap e.logbook_date gap))
    (copyDF s r)

/-- The event types of `generate_membership_events`. -/
def membership_event_types : List (List Char) :=
  ["Renewal".data, "Subscription".data, "Reimbursement".data,
   "Supplement".data, "Separate Payment".data]

/-- `generate_membership_events` as heap operations (lines 234-272): a
boolean-mask selection (`events_df[events_df.event_type.isin([...])]`,
allocating a new frame), then two in-place column assignments on that new
frame; the input frame is never written. -/
def generate_membership_events_st (s : PdState EventRow) (r : Nat) :
    Nat × PdState EventRow :=
  let m := maskCopy s r (fun row => membership_event_types.contains row.event_type)
  let s1 := assignCols m.2 m.1
    (fun row => { row with earliest_date := row_earliest_date row })
  let s2 := assignCols s1 m.1 (fun row => { row with date := row.earliest_date })
  (m.1, s2)

theorem readDF_allocDF {α : Type} (s : PdState α) (df : List α) (r : Nat)
    (h : r < s.frames.length) : readDF (allocDF s df).2 r = readDF s r := by
  simp only [readDF, allocDF]
  rw [List.get?_append h]

theorem readDF_assignCols_ne {α : Type} (s : PdState α) (i r : Nat) (f : α → α)
    (h : i ≠ r) : readDF (assignCols s i f) r = readDF s r := by
  simp only [readDF, assignCols]
  rw [List.get?_set_ne _ _ h]

theorem readDF_assignCols_eq {α : Type} (s : PdState α) (r : Nat) (f : α → α)
    (h : r < s.frames.length) :
    readDF (assignCols s r f) r = (readDF s r).map f := by
  have hv : s.frames.get? r = some (s.frames.get ⟨r, h⟩) := List.get?_eq_get h
  simp only [readDF, assignCols]
  rw [List.get?_set_eq, hv]
  rfl

theorem assignCols_length {α : Type} (s : PdState α) (r : Nat) (f : α → α) :
    (assignCols s r f).frames.length = s.frames.length := by
  simp [assignCols]

theorem foldl_maskCopy_preserves (gaps : List Gap) :
    ∀ (s : PdState LogRow) (cur r : Nat), r < s.frames.length →
      readDF (gaps.foldl
        (fun acc gap =>
          maskCopy acc.2 acc.1 (fun e => ! dateInGap e.logbook_date gap))
        (cur, s)).2 r = readDF s r := by
  induction gaps with
  | nil =>
    intro s cur r h
    rfl
  | cons g gs ih =>
    intro s cur r h
    have h2 : r < ((maskCopy s cur
        (fun e => ! dateInGap e.logbook_date g)).2).frames.length := by
      simp only [maskCopy, allocDF, List.length_append, List.length_singleton]
      omega
    calc readDF (gs.foldl
          (fun acc gap =>
            maskCopy acc.2 acc.1 (fun e => ! dateInGap e.logbook_date gap))
          (maskCopy s cur (fun e => ! dateInGap e.logbook_date g))).2 r
        = readDF (maskCopy s cur (fun e => ! dateInGap e.logbook_date g)).2 r :=
          ih _ _ r h2
      _ = readDF s r := readDF_allocDF s _ r h

theorem exclude_gap_events_st_no_mutation (s : PdState LogRow) (r : Nat)
    (gaps : List Gap) (h : r < s.frames.length) :
    readDF (exclude_gap_events_st s r gaps).2 r = readDF s r := by
  have h2 : r < ((copyDF s r).2).frames.length := by
    simp only [copyDF, allocDF, List.length_append, List.length_singleton]
    omega
  calc readDF (exclude_gap_events_st s r gaps).2 r
      = readDF (copyDF s r).2 r := foldl_maskCopy_preserves gaps _ _ r h2
    _ = readDF s r := readDF_allocDF s _ r h

theorem generate_membership_events_st_no_mutation (s : PdState EventRow)
    (r : Nat) (h : r < s.frames.length) :
    readDF (generate_membership_events_st s r).2 r = readDF s r := by
  have hne : s.frames.length ≠ r := by omega
  show readDF (assignCols (assignCols
      (maskCopy s r (fun row => membership_event_types.contains row.event_type)).2
      s.frames.length _) s.frames.length _) r = readDF s r
  rw [readDF_assignCols_ne _ _ _ _ hne, readDF_assignCols_ne _ _ _ _ hne]
  exact readDF_allocDF s _ r h

theorem preprocess_events_data_st_mutates (s : PdState EventRow) (r : Nat)
    (h : r < s.frames.length) :
    (preprocess_events_data_st s r).1 = r ∧
    readDF (preprocess_events_data_st s r).2 r
      = preprocess_events_data (readDF s r) := by
  refine ⟨rfl, ?_⟩
  have h1 : r < (assignCols s r split_member_uris).frames.length := by
    rw [assignCols_length]
    exact h
  have h2 : r < (assignCols (assignCols s r split_member_uris) r
      assign_member_id).frames.length := by
    rw [assignCols_length, assignCols_length]
    exact h
  show readDF (assignCols (assignCols (assignCols s r split_member_uris) r
      assign_member_id) r assign_item_id) r = _
  rw [readDF_assignCols_eq _ _ _ h2, readDF_assignCols_eq _ _ _ h1,
    readDF_assignCols_eq _ _ _ h]
  rfl

/-- Counterexample to claim C9 as stated: `preprocess_events_data` mutates
its input in place — after the call, the caller's events frame is no longer
the collection that was passed in (the derived columns have been written
into it). -/
theorem C9_counterexample_preprocess_mutates :
    readDF ((preprocess_events_data_st ⟨[[sharedEvent]]⟩ 0).2) 0
      ≠ readDF (⟨[[sharedEvent]]⟩ : PdState EventRow) 0 := by decide

/-- Claim C9 amended: the gap filter (`exclude_gap_events`, which copies
its input first) and the membership classifier
(`generate_membership_events`, which assigns columns only on the new
mask-selected frame) leave their input frame unchanged; but
`preprocess_events_data` assigns its derived columns in place on the input
frame, which after the call holds the processed rows and is itself the
returned frame. -/
theorem C9_stage_mutation_amended :
    (∀ (s : PdState LogRow) (r : Nat) (gaps : List Gap), r < s.frames.length →
      readDF (exclude_gap_events_st s r gaps).2 r = readDF s r) ∧
    (∀ (s : PdState EventRow) (r : Nat), r < s.frames.length →
      readDF (generate_membership_events_st s r).2 r = readDF s r) ∧
    (∀ (s : PdState EventRow) (r : Nat), r < s.frames.length →
      (preprocess_events_data_st s r).1 = r ∧
      readDF (preprocess_events_data_st s r).2 r
        = preprocess_events_data (readDF s r)) :=
  ⟨exclude_gap_events_st_no_mutation,
   generate_membership_events_st_no_mutation,
   preprocess_events_data_st_mutates⟩

/-- Witness for the amended claim C9: the three parts applied to a concrete
one-frame heap, discharging the reference-validity hypotheses. -/
theorem C9_stage_mutation_amended_witness :
    readDF (exclude_gap_events_st ⟨[[⟨"Subscription".data, some 5⟩]]⟩ 0
        [⟨1, 10, 9⟩]).2 0 = readDF (⟨[[⟨"Subscription".data, some 5⟩]]⟩ : PdState LogRow) 0 ∧
    readDF (generate_membership_events_st ⟨[[sharedEvent]]⟩ 0).2 0
      = readDF (⟨[[sharedEvent]]⟩ : PdState EventRow) 0 ∧
    readDF (preprocess_events_data_st ⟨[[sharedEvent]]⟩ 0).2 0
      = preprocess_events_data (readDF (⟨[[sharedEvent]]⟩ : PdState EventRow) 0) :=
  ⟨C9_stage_mutation_amended.1 ⟨[[⟨"Subscription".data, some 5⟩]]⟩ 0 [⟨1, 10, 9⟩]
      (by decide),
   C9_stage_mutation_amended.2.1 ⟨[[sharedEvent]]⟩ 0 (by decide),
   (C9_stage_mutation_amended.2.2 ⟨[[sharedEvent]]⟩ 0 (by decide)).2⟩
